import Mathlib

/-!
Verification of the YesNo MCP server (src/server.js, v2.2.0).

The development shallowly embeds the JSON values the server manipulates,
the JavaScript coercions the handler code relies on (truthiness, property
access, string conversion, JSON.stringify), the JSON-RPC helpers
rpcResult / rpcError, the /mcp dispatcher, and the /sse announcer.
Server time (Date.now) and the output of crypto.randomInt(0, 2) are passed
in as explicit parameters.
-/

namespace YesNoMcp

/-- JSON values as delivered by the express.json body parser: null, booleans,
numbers (the bodies of interest carry integer values), strings, arrays and
objects (field lists in insertion order). -/
inductive Json where
  | null : Json
  | bool : Bool → Json
  | num : Int → Json
  | str : String → Json
  | arr : List Json → Json
  | obj : List (String × Json) → Json

/-- Recognizer for the JSON null value. -/
def Json.isNull : Json → Bool
  | .null => true
  | _ => false

/-- JavaScript truthiness of a JSON value: null, false, 0 and the empty
string are falsy; every other JSON value (including empty arrays and empty
objects) is truthy. -/
def truthy : Json → Bool
  | .null => false
  | .bool b => b
  | .num n => n != 0
  | .str s => s != ""
  | .arr _ => true
  | .obj _ => true

/-- Truthiness of a possibly-undefined value (`none` models undefined). -/
def truthyOpt : Option Json → Bool
  | none => false
  | some v => truthy v

/-- Duplicate keys in parsed JSON resolve to the last occurrence, so field
lookup searches the tail of the field list first. -/
def lookupLast (k : String) : List (String × Json) → Option Json
  | [] => none
  | (k2, v) :: rest =>
    match lookupLast k rest with
    | some r => some r
    | none => if k2 = k then some v else none

/-- Property access `j.k` on a JSON value: a field of an object when present,
otherwise undefined (`none`); accessing a property of a non-object JSON value
yields undefined. -/
def getField (j : Json) (k : String) : Option Json :=
  match j with
  | .obj fields => lookupLast k fields
  | _ => none

/-- Optional chaining `x?.k` on a possibly-undefined value. -/
def optField (x : Option Json) (k : String) : Option Json :=
  match x with
  | none => none
  | some j => getField j k

/-- Models `const lbrace id = null rbrace = msg || lbrace rbrace` of the
dispatcher: the message's id field when present, otherwise null (this also
covers a falsy or non-object message, whose destructuring yields no id). -/
def getId (msg : Json) : Json :=
  (getField msg "id").getD Json.null

/-- Models a strict-equality comparison `x === "s"` of a possibly-undefined
value against a string literal: true exactly when x is that string. -/
def isStrEq (x : Option Json) (s : String) : Bool :=
  match x with
  | some (.str t) => t == s
  | _ => false

/-- Models `x || ""`: the value itself when truthy, otherwise the empty
string. -/
def orEmpty (x : Option Json) : Json :=
  match x with
  | some v => if truthy v then v else .str ""
  | none => .str ""

mutual

/-- JavaScript String() conversion (`.toString()`) of a JSON value: strings
are themselves, numbers print in decimal, booleans print true/false, arrays
join their elements with commas (null elements joining as empty), plain
objects print as the tag string used by Object.prototype.toString. -/
def jsToString : Json → String
  | .null => "null"
  | .bool b => if b then "true" else "false"
  | .num n => toString n
  | .str s => s
  | .arr xs => jsArrJoin xs
  | .obj _ => "[object Object]"

/-- Array.prototype.toString: elements joined with commas, null elements
contributing the empty string. -/
def jsArrJoin : List Json → String
  | [] => ""
  | [x] => if x.isNull then "" else jsToString x
  | x :: xs => (if x.isNull then "" else jsToString x) ++ "," ++ jsArrJoin xs

end

/-- One lowercase hexadecimal digit. -/
def hexDigit (n : Nat) : String :=
  if n < 10 then String.singleton (Char.ofNat (48 + n))
  else String.singleton (Char.ofNat (87 + n))

/-- Two lowercase hexadecimal digits of a byte. -/
def hex2 (n : Nat) : String :=
  hexDigit (n / 16) ++ hexDigit (n % 16)

/-- JSON.stringify escaping of one character inside a string literal. -/
def jsonEscapeChar (c : Char) : String :=
  if c = '"' then "\\\""
  else if c = '\\' then "\\\\"
  else if c = '\n' then "\\n"
  else if c = '\r' then "\\r"
  else if c = '\t' then "\\t"
  else if c.toNat = 8 then "\\b"
  else if c.toNat = 12 then "\\f"
  else if c.toNat < 32 then "\\u00" ++ hex2 c.toNat
  else String.singleton c

/-- JSON.stringify escaping of a string body. -/
def jsonEscape (s : String) : String :=
  String.join (s.toList.map jsonEscapeChar)

mutual

/-- JSON.stringify of a JSON value: null/booleans/numbers print literally,
strings are quoted and escaped, arrays bracket comma-separated elements,
objects brace comma-separated quoted-key:value pairs in insertion order. -/
def jsonStringify : Json → String
  | .null => "null"
  | .bool b => if b then "true" else "false"
  | .num n => toString n
  | .str s => "\"" ++ jsonEscape s ++ "\""
  | .arr xs => "[" ++ jsonStringifyArr xs ++ "]"
  | .obj fs => "\x7b" ++ jsonStringifyObj fs ++ "\x7d"

/-- Comma-separated serialization of array elements. -/
def jsonStringifyArr : List Json → String
  | [] => ""
  | [x] => jsonStringify x
  | x :: xs => jsonStringify x ++ "," ++ jsonStringifyArr xs

/-- Comma-separated serialization of object fields. -/
def jsonStringifyObj : List (String × Json) → String
  | [] => ""
  | [(k, v)] => "\"" ++ jsonEscape k ++ "\":" ++ jsonStringify v
  | (k, v) :: fs =>
    "\"" ++ jsonEscape k ++ "\":" ++ jsonStringify v ++ "," ++ jsonStringifyObj fs

end

/-- server.js line 31: yesNoRandom. The parameter is the value drawn from
crypto.randomInt(0, 2); the function returns yes when that value strictly
equals 0 and no otherwise. -/
def yesNoRandom (v : Nat) : String :=
  if v = 0 then "yes" else "no"

/-- server.js line 109: a JSON-RPC success envelope. -/
def rpcResult (id result : Json) : Json :=
  .obj [("jsonrpc", .str "2.0"), ("id", id), ("result", result)]

/-- server.js line 112: a JSON-RPC error envelope. -/
def rpcError (id : Json) (code : Int) (message : String) : Json :=
  .obj [("jsonrpc", .str "2.0"), ("id", id),
        ("error", .obj [("code", .num code), ("message", .str message)])]

/-- The tools/list result literal of server.js lines 150-171: the single
yesno tool descriptor. -/
def toolsListResult : Json :=
  .obj [("tools", .arr [
    .obj [
      ("name", .str "yesno"),
      ("description", .str "Return a cryptographically random yes or no."),
      ("input_schema", .obj [
        ("type", .str "object"),
        ("properties", .obj [
          ("prompt", .obj [
            ("type", .str "string"),
            ("description", .str "Any question or text (ignored for randomness).")])]),
        ("required", .arr [.str "prompt"]),
        ("additionalProperties", .bool false)])]])]

/-- The initialize result literal of server.js lines 140-144. -/
def initializeResult : Json :=
  .obj [
    ("protocolVersion", .str "2025-03-26"),
    ("serverInfo", .obj [("name", .str "yesno-mcp"), ("version", .str "2.2.0")]),
    ("capabilities", .obj [("tools", .obj [("list", .bool true), ("call", .bool true)])])]

/-- The body of the dispatch loop of server.js lines 125-199 for one message:
given the server time `now` (sampled once per POST, line 120) and the value
`rv` the next crypto.randomInt(0, 2) call would draw, it returns the response
entry pushed for the message together with a flag recording whether
yesNoRandom was invoked (so a batch consumes random values in order). Every
message pushes exactly one entry; the branch order mirrors the source:
missing/falsy method, ping, initialize, tools/list, tools/call, fallback. -/
def stepMsg (now : Int) (rv : Nat) (msg : Json) : Json × Bool :=
  if !truthyOpt (getField msg "method") then
    (rpcError (getId msg) (-32600) "Invalid Request", false)
  else if isStrEq (getField msg "method") "ping" then
    (rpcResult (getId msg) (.obj [("pong", .num now)]), false)
  else if isStrEq (getField msg "method") "initialize" then
    (rpcResult (getId msg) initializeResult, false)
  else if isStrEq (getField msg "method") "tools/list" then
    (rpcResult (getId msg) toolsListResult, false)
  else if isStrEq (getField msg "method") "tools/call" then
    if !isStrEq (optField (getField msg "params") "name") "yesno" then
      (rpcError (getId msg) (-32601) "Unknown tool", false)
    else
      (rpcResult (getId msg) (.obj [
        ("content", .arr [.obj [
          ("type", .str "text"),
          ("text", .str (jsonStringify (.obj [
            ("answer", .str (yesNoRandom rv)),
            ("prompt", .str (jsToString (orEmpty
              (optField (optField (getField msg "params") "arguments") "prompt"))))])))]]),
        ("isError", .bool false)]), true)
  else
    (rpcError (getId msg) (-32601) "Method not found", false)

/-- The dispatch loop over the normalized request list: `r k` is the value
the k-th call to crypto.randomInt(0, 2) draws during this POST; the counter
advances exactly when a message ran yesNoRandom. -/
def processMsgs (now : Int) (r : Nat → Nat) : Nat → List Json → List Json
  | _, [] => []
  | k, msg :: rest =>
    (stepMsg now (r k) msg).1 ::
      processMsgs now r (if (stepMsg now (r k) msg).2 then k + 1 else k) rest

/-- The /mcp handler of server.js lines 118-202: an array body is processed
element-wise and answered with the array of entries; any other body is
wrapped into a one-element list (line 122) and answered with the first
produced entry (line 201) — the loop always pushes one entry per message, so
for the non-array case the list is a singleton and headD never falls back. -/
def mcpResponse (now : Int) (r : Nat → Nat) (body : Json) : Json :=
  match body with
  | .arr msgs => .arr (processMsgs now r 0 msgs)
  | other => (processMsgs now r 0 [other]).headD Json.null

/-- Recognizer for array-shaped JSON bodies (Array.isArray). -/
def Json.isArr : Json → Bool
  | .arr _ => true
  | _ => false

/-- server.js lines 83-84: the externally visible base URL of the /sse
announcer — the PUBLIC_BASE_URL environment variable when set and non-empty
(JavaScript ||, so the empty string falls through), otherwise
scheme://host derived from the request. -/
def sseBase (publicBaseUrl : Option String) (protocol host : String) : String :=
  match publicBaseUrl with
  | some b => if b = "" then protocol ++ "://" ++ host else b
  | none => protocol ++ "://" ++ host

/-- server.js lines 85-89: the endpointEvent object announced on /sse. -/
def endpointEvent (base : String) : Json :=
  .obj [
    ("uri", .str (base ++ "/mcp")),
    ("protocol", .str "jsonrpc-2.0"),
    ("version", .str "2025-03-26")]

/-- server.js lines 92-93: the sequence of writes the /sse handler performs
synchronously after committing headers and before scheduling the keep-alive
timer: one event line and one data line carrying the JSON-serialized
endpointEvent. -/
def sseInitialWrites (publicBaseUrl : Option String) (protocol host : String) :
    List String :=
  let base := sseBase publicBaseUrl protocol host
  ["event: endpoint\n",
   "data: " ++ jsonStringify (endpointEvent base) ++ "\n\n"]

/-- Modelled from the spec: the protocol-version negotiation the spec
describes for initialize — the server holds an ordered preference list of
supported versions; a proposal on the list is echoed back, anything else
falls back to the fixed default. The code's preference list is the singleton
holding its only version string. -/
def specNegotiateVersion (supported : List String) (dflt proposed : String) :
    String :=
  if proposed ∈ supported then proposed else dflt

/-- The code's ordered preference list of protocol versions: the one version
it ever answers with. -/
def supportedVersions : List String := ["2025-03-26"]

/-- The code's default protocol version. -/
def defaultProtocolVersion : String := "2025-03-26"

/-- The result object pushed for a successful yesno tools/call, with answer
string a and coerced prompt string p. -/
def yesnoCallResult (a p : String) : Json :=
  .obj [
    ("content", .arr [.obj [("type", .str "text"),
      ("text", .str (jsonStringify (.obj [("answer", .str a), ("prompt", .str p)])))]]),
    ("isError", .bool false)]

/-- The dispatch loop produces exactly one response entry per input message,
whatever the messages are. -/
theorem processMsgs_length (now : Int) (r : Nat → Nat) (k : Nat) (msgs : List Json) :
    (processMsgs now r k msgs).length = msgs.length := by
  induction msgs generalizing k with
  | nil => rfl
  | cons m ms ih => simp [processMsgs, ih]

/-- Every entry the dispatch loop pushes is a JSON object. -/
theorem stepMsg_obj (now : Int) (rv : Nat) (msg : Json) :
    ∃ fields, (stepMsg now rv msg).1 = Json.obj fields := by
  unfold stepMsg
  repeat' split
  all_goals exact ⟨_, rfl⟩

/-- Every entry the dispatch loop pushes carries the id of its message. -/
theorem stepMsg_id (now : Int) (rv : Nat) (msg : Json) :
    getField (stepMsg now rv msg).1 "id" = some (getId msg) := by
  unfold stepMsg
  repeat' split
  all_goals rfl

/-- The i-th entry of the dispatch loop's output is the entry for the i-th
input message, at some position of the random stream. -/
theorem processMsgs_getD (now : Int) (r : Nat → Nat) :
    ∀ (msgs : List Json) (k i : Nat), i < msgs.length →
      ∃ kv, (processMsgs now r k msgs).getD i Json.null
        = (stepMsg now (r kv) (msgs.getD i Json.null)).1 := by
  intro msgs
  induction msgs with
  | nil => intro k i h; simp at h
  | cons m ms ih =>
    intro k i h
    cases i with
    | zero => exact ⟨k, rfl⟩
    | succ n =>
      obtain ⟨kv, hkv⟩ := ih (if (stepMsg now (r k) m).2 then k + 1 else k) n
        (by simpa using Nat.lt_of_succ_lt_succ h)
      exact ⟨kv, by simpa [processMsgs] using hkv⟩

/-- A message whose method field is the string ping is answered with the
pong result carrying the per-POST timestamp, whatever random value is next. -/
theorem stepMsg_ping (now : Int) (rv : Nat) (msg : Json)
    (h : getField msg "method" = some (Json.str "ping")) :
    (stepMsg now rv msg).1 = rpcResult (getId msg) (.obj [("pong", .num now)]) := by
  simp [stepMsg, h, truthyOpt, truthy, isStrEq]

/-- A non-array body is answered with a single JSON object. -/
theorem mcpResponse_single_obj (now : Int) (r : Nat → Nat) (body : Json)
    (hb : body.isArr = false) :
    ∃ fields, mcpResponse now r body = Json.obj fields := by
  obtain ⟨fs, hfs⟩ := stepMsg_obj now (r 0) body
  refine ⟨fs, ?_⟩
  cases body <;> simp_all [mcpResponse, processMsgs, Json.isArr]

/-- C1 counterexample: the batch holding the single malformed notification
(no method, no id) is answered with a one-entry response array, not with an
array lacking an entry for it — the dispatcher emits an Invalid Request
failure entry with id null even for an id-less message. -/
theorem C1_counterexample :
    mcpResponse 0 (fun _ => 0) (.arr [.obj []])
      = .arr [rpcError .null (-32600) "Invalid Request"] ∧
    Json.arr [rpcError .null (-32600) "Invalid Request"] ≠ Json.arr [] :=
  ⟨rfl, by simp [rpcError]⟩

/-- C1 amended: every message in a POSTed batch, notifications included,
produces exactly one response entry; a malformed message with no method and
no id produces the Invalid Request failure entry with id null. -/
theorem C1_notifications_answered (now : Int) (r : Nat → Nat) (k : Nat)
    (msgs : List Json) :
    (processMsgs now r k msgs).length = msgs.length ∧
    (∀ rv msg, getField msg "method" = none → getField msg "id" = none →
      (stepMsg now rv msg).1 = rpcError Json.null (-32600) "Invalid Request") := by
  refine ⟨processMsgs_length now r k msgs, ?_⟩
  intro rv msg h1 h2
  simp [stepMsg, h1, truthyOpt, getId, h2]

/-- C1 witness: the amended statement evaluated on the malformed id-less
notification. -/
theorem C1_witness :
    (processMsgs 5 (fun _ => 0) 0 [Json.obj []]).length = 1 ∧
    (stepMsg 5 0 (Json.obj [])).1 = rpcError Json.null (-32600) "Invalid Request" :=
  ⟨(C1_notifications_answered 5 (fun _ => 0) 0 [Json.obj []]).1,
   (C1_notifications_answered 5 (fun _ => 0) 0 [Json.obj []]).2 0 (Json.obj []) rfl rfl⟩

/-- C2 counterexample: with the public base URL configured, the /sse handler
writes exactly one endpoint event block whose data payload is the JSON
serialization of the endpointEvent object — not the bare URL string the claim
requires, and not a second endpoint event block. -/
theorem C2_counterexample :
    sseInitialWrites (some "https://x.example") "http" "h"
      = ["event: endpoint\n",
         "data: \x7b\"uri\":\"https://x.example/mcp\",\"protocol\":\"jsonrpc-2.0\",\"version\":\"2025-03-26\"\x7d\n\n"] ∧
    ("data: \x7b\"uri\":\"https://x.example/mcp\",\"protocol\":\"jsonrpc-2.0\",\"version\":\"2025-03-26\"\x7d\n\n"
      ≠ "data: https://x.example/mcp\n\n") ∧
    ("data: \x7b\"uri\":\"https://x.example/mcp\",\"protocol\":\"jsonrpc-2.0\",\"version\":\"2025-03-26\"\x7d\n\n"
      ≠ "event: endpoint\n") :=
  ⟨rfl, by decide, by decide⟩

/-- C2 amended: on every GET to /sse the data written after headers are
committed is a single endpoint event block whose payload is the JSON object
holding uri (base followed by /mcp), protocol and version — the base being
the configured public base URL when set and non-empty, otherwise derived from
the request scheme and host. -/
theorem C2_sse_single_endpoint_event (pb : Option String) (protocol host : String) :
    sseInitialWrites pb protocol host
      = ["event: endpoint\n",
         "data: " ++ jsonStringify (endpointEvent (sseBase pb protocol host)) ++ "\n\n"] ∧
    jsonStringify (endpointEvent "https://b.example")
      = "\x7b\"uri\":\"https://b.example/mcp\",\"protocol\":\"jsonrpc-2.0\",\"version\":\"2025-03-26\"\x7d" ∧
    (∀ b, pb = some b → b ≠ "" → sseBase pb protocol host = b) ∧
    (pb = none → sseBase pb protocol host = protocol ++ "://" ++ host) := by
  refine ⟨rfl, by decide, ?_, ?_⟩
  · intro b hb hb2
    subst hb
    simp [sseBase, hb2]
  · intro hb
    subst hb
    rfl

/-- C2 witness: the amended statement evaluated with a configured public
base URL. -/
theorem C2_witness :
    sseInitialWrites (some "https://b.example") "http" "h"
      = ["event: endpoint\n",
         "data: \x7b\"uri\":\"https://b.example/mcp\",\"protocol\":\"jsonrpc-2.0\",\"version\":\"2025-03-26\"\x7d\n\n"] ∧
    sseBase (some "https://b.example") "http" "h" = "https://b.example" := by
  have h := C2_sse_single_endpoint_event (some "https://b.example") "http" "h"
  have hb := h.2.2.1 "https://b.example" rfl (by decide)
  refine ⟨?_, hb⟩
  rw [h.1, hb, h.2.1]
  rfl

/-- C3 counterexample: the all-notification batch holding one id-less ping is
answered with a one-entry JSON array — a JSON payload — not with an
empty-body acknowledgement and not with an empty sequence. -/
theorem C3_counterexample :
    mcpResponse 7 (fun _ => 0) (.arr [.obj [("method", .str "ping")]])
      = .arr [rpcResult .null (.obj [("pong", .num 7)])] ∧
    Json.arr [rpcResult .null (.obj [("pong", .num 7)])] ≠ Json.arr [] :=
  ⟨rfl, by simp [rpcResult]⟩

/-- C3 amended: a POSTed array in which every message is a notification is
answered with HTTP 200 and a JSON array holding one entry per message (so a
nonempty all-notification batch gets a nonempty array, and only the empty
batch gets the empty array); no empty-body acknowledgement exists in the
handler. -/
theorem C3_all_notification_array (now : Int) (r : Nat → Nat) (msgs : List Json)
    (_h : ∀ m ∈ msgs, getId m = Json.null) :
    ∃ entries, mcpResponse now r (.arr msgs) = .arr entries
      ∧ entries.length = msgs.length :=
  ⟨processMsgs now r 0 msgs, rfl, processMsgs_length now r 0 msgs⟩

/-- C3 witness: the amended statement evaluated on a one-notification
batch. -/
theorem C3_witness :
    ∃ entries, mcpResponse 7 (fun _ => 0) (.arr [Json.obj [("method", Json.str "ping")]])
      = .arr entries ∧ entries.length = 1 :=
  C3_all_notification_array 7 (fun _ => 0) [Json.obj [("method", Json.str "ping")]]
    (by intro m hm; simp at hm; subst hm; rfl)

/-- C4: for every initialize request the response is a success whose
protocolVersion is the negotiation outcome — a proposal on the supported
list is echoed back and any other proposal (such as 1999-01-01) falls back
to the default version — and in the code the supported list is the singleton
holding the default, so the answer is always 2025-03-26 and never an error. -/
theorem C4_initialize_version_negotiation (now : Int) (rv : Nat) (id : Json)
    (proposed : String) :
    (stepMsg now rv (.obj [("id", id), ("method", .str "initialize"),
        ("params", .obj [("protocolVersion", .str proposed)])])).1
      = rpcResult id (.obj [
          ("protocolVersion",
            .str (specNegotiateVersion supportedVersions defaultProtocolVersion proposed)),
          ("serverInfo", .obj [("name", .str "yesno-mcp"), ("version", .str "2.2.0")]),
          ("capabilities", .obj [("tools", .obj [("list", .bool true), ("call", .bool true)])])]) ∧
    specNegotiateVersion supportedVersions defaultProtocolVersion "1999-01-01"
      = defaultProtocolVersion := by
  have h : specNegotiateVersion supportedVersions defaultProtocolVersion proposed
      = "2025-03-26" := by
    unfold specNegotiateVersion supportedVersions defaultProtocolVersion
    by_cases hp : proposed = "2025-03-26"
    · simp [hp]
    · simp [List.mem_singleton, hp]
  refine ⟨?_, by decide⟩
  rw [h]
  rfl

/-- C5: the response shape mirrors the request shape — a non-array body is
answered with a single JSON object (never a one-element array), and an array
of request messages (none of them notifications) is answered with an array of
exactly as many entries, the i-th entry carrying the id of the i-th
request. -/
theorem C5_shape_mirroring (now : Int) (r : Nat → Nat) :
    (∀ body : Json, body.isArr = false →
      ∃ fields, mcpResponse now r body = Json.obj fields) ∧
    (∀ msgs : List Json, (∀ m ∈ msgs, getId m ≠ Json.null) →
      ∃ entries, mcpResponse now r (.arr msgs) = .arr entries
        ∧ entries.length = msgs.length
        ∧ ∀ i, i < msgs.length →
            getField (entries.getD i Json.null) "id"
              = some (getId (msgs.getD i Json.null))) := by
  constructor
  · exact fun body hb => mcpResponse_single_obj now r body hb
  · intro msgs hmsgs
    refine ⟨processMsgs now r 0 msgs, rfl, processMsgs_length now r 0 msgs, ?_⟩
    intro i hi
    obtain ⟨kv, hkv⟩ := processMsgs_getD now r msgs 0 i hi
    rw [hkv, stepMsg_id]

/-- C5 witness: the shape-mirroring statement evaluated on a single ping
request and on a one-request batch. -/
theorem C5_witness :
    (∃ fields, mcpResponse 0 (fun _ => 0)
      (Json.obj [("id", Json.num 1), ("method", Json.str "ping")]) = Json.obj fields) ∧
    (∃ entries, mcpResponse 0 (fun _ => 0)
        (.arr [Json.obj [("id", Json.num 1), ("method", Json.str "ping")]]) = .arr entries
      ∧ entries.length = 1
      ∧ ∀ i, i < 1 →
          getField (entries.getD i Json.null) "id"
            = some (getId ([Json.obj [("id", Json.num 1), ("method", Json.str "ping")]].getD
                i Json.null))) :=
  ⟨(C5_shape_mirroring 0 (fun _ => 0)).1 _ rfl,
   (C5_shape_mirroring 0 (fun _ => 0)).2 [Json.obj [("id", Json.num 1), ("method", Json.str "ping")]]
     (by intro m hm; simp at hm; subst hm; simp [getId, getField, lookupLast])⟩

/-- C6 counterexample: a tools/call whose prompt argument is the number 42 —
truthy and not a string — succeeds with the prompt serialized as the string
42, not coerced to the empty string as the claim requires. -/
theorem C6_counterexample :
    (stepMsg 0 0 (.obj [("id", .num 1), ("method", .str "tools/call"),
        ("params", .obj [("name", .str "yesno"),
          ("arguments", .obj [("prompt", .num 42)])])])).1
      = rpcResult (.num 1) (.obj [("content", .arr [.obj [("type", .str "text"),
          ("text", .str "\x7b\"answer\":\"yes\",\"prompt\":\"42\"\x7d")]]),
          ("isError", .bool false)]) ∧
    ("\x7b\"answer\":\"yes\",\"prompt\":\"42\"\x7d" : String)
      ≠ "\x7b\"answer\":\"yes\",\"prompt\":\"\"\x7d" :=
  ⟨rfl, by decide⟩

/-- C6 amended: every tools/call naming the yesno tool succeeds whatever the
prompt argument is — a missing or falsy prompt (null, false, 0, empty string)
is coerced to the empty string, while a truthy non-string is converted with
the JavaScript string conversion; the call never fails on a missing prompt
despite the advertised schema declaring prompt required. -/
theorem C6_prompt_coercion (now : Int) (rv : Nat) (id : Json) (args : Option Json) :
    (stepMsg now rv (.obj [("id", id), ("method", .str "tools/call"),
        ("params", .obj (("name", .str "yesno") ::
          (args.map (fun a => ("arguments", a))).toList))])).1
      = rpcResult id (.obj [
          ("content", .arr [.obj [("type", .str "text"),
            ("text", .str (jsonStringify (.obj [
              ("answer", .str (yesNoRandom rv)),
              ("prompt", .str (jsToString (orEmpty (optField args "prompt"))))])))]]),
          ("isError", .bool false)]) ∧
    (∀ j : Json, truthy j = false → jsToString (orEmpty (some j)) = "") ∧
    jsToString (orEmpty none) = "" := by
  refine ⟨?_, ?_, rfl⟩
  · cases args with
    | none => rfl
    | some a => rfl
  · intro j hj
    simp [orEmpty, hj, jsToString]

/-- C6 witness: the amended statement evaluated at a missing arguments
object and at the falsy prompt null. -/
theorem C6_witness :
    jsToString (orEmpty (some Json.null)) = "" ∧
    (stepMsg 0 0 (.obj [("id", .num 1), ("method", .str "tools/call"),
        ("params", .obj [("name", .str "yesno")])])).1
      = rpcResult (.num 1) (.obj [
          ("content", .arr [.obj [("type", .str "text"),
            ("text", .str (jsonStringify (.obj [("answer", .str "yes"),
              ("prompt", .str "")])))]]),
          ("isError", .bool false)]) :=
  ⟨(C6_prompt_coercion 0 0 (.num 1) none).2.1 Json.null rfl,
   (C6_prompt_coercion 0 0 (.num 1) none).1⟩

/-- C7: every tools/call naming the yesno tool is answered with a success
entry whose serialized answer field is yesNoRandom of the drawn value, and
yesNoRandom produces exactly the string yes or the string no, never any
other value. -/
theorem C7_answer_always_yes_or_no (now : Int) (rv : Nat) (id argsJ : Json) :
    (∃ p, (stepMsg now rv (.obj [("id", id), ("method", .str "tools/call"),
        ("params", .obj [("name", .str "yesno"), ("arguments", argsJ)])])).1
      = rpcResult id (.obj [
          ("content", .arr [.obj [("type", .str "text"),
            ("text", .str (jsonStringify (.obj [
              ("answer", .str (yesNoRandom rv)), ("prompt", .str p)])))]]),
          ("isError", .bool false)])) ∧
    (yesNoRandom rv = "yes" ∨ yesNoRandom rv = "no") := by
  refine ⟨⟨_, rfl⟩, ?_⟩
  by_cases h : rv = 0
  · left; simp [yesNoRandom, h]
  · right; simp [yesNoRandom, h]

/-- C8: the prompt never influences the answer — two tools/call invocations
for which the random source yields the same next value produce the same
answer string whatever their prompts (and ids and per-POST timestamps)
are. -/
theorem C8_prompt_never_influences_answer (now1 now2 : Int) (rv : Nat)
    (id1 id2 p1 p2 : Json) :
    ∃ a : String, a = yesNoRandom rv ∧
      (stepMsg now1 rv (.obj [("id", id1), ("method", .str "tools/call"),
          ("params", .obj [("name", .str "yesno"),
            ("arguments", .obj [("prompt", p1)])])])).1
        = rpcResult id1 (yesnoCallResult a (jsToString (orEmpty (some p1)))) ∧
      (stepMsg now2 rv (.obj [("id", id2), ("method", .str "tools/call"),
          ("params", .obj [("name", .str "yesno"),
            ("arguments", .obj [("prompt", p2)])])])).1
        = rpcResult id2 (yesnoCallResult a (jsToString (orEmpty (some p2)))) :=
  ⟨yesNoRandom rv, rfl, rfl, rfl⟩

/-- C9: the /mcp dispatcher is total over arbitrary JSON bodies — a null
entry and a method-less, id-less entry each yield the Invalid Request
failure entry with id null, an array body is always answered with an array
holding one entry per element, and a non-array body is always answered with
a single JSON object. -/
theorem C9_dispatcher_total (now : Int) (r : Nat → Nat) :
    (∀ rv, (stepMsg now rv Json.null).1
      = rpcError Json.null (-32600) "Invalid Request") ∧
    (∀ rv msg, getField msg "method" = none → getField msg "id" = none →
      (stepMsg now rv msg).1 = rpcError Json.null (-32600) "Invalid Request") ∧
    (∀ msgs : List Json, ∃ entries, mcpResponse now r (.arr msgs) = .arr entries
      ∧ entries.length = msgs.length) ∧
    (∀ body : Json, body.isArr = false →
      ∃ fields, mcpResponse now r body = Json.obj fields) := by
  refine ⟨fun rv => rfl, ?_, ?_, fun body hb => mcpResponse_single_obj now r body hb⟩
  · intro rv msg h1 h2
    simp [stepMsg, h1, truthyOpt, getId, h2]
  · intro msgs
    exact ⟨processMsgs now r 0 msgs, rfl, processMsgs_length now r 0 msgs⟩

/-- C9 witness: totality evaluated on a null entry, a method-less entry, a
two-element array holding both, and the null body itself. -/
theorem C9_witness :
    (stepMsg 0 0 Json.null).1 = rpcError Json.null (-32600) "Invalid Request" ∧
    (stepMsg 0 0 (Json.obj [("params", Json.num 3)])).1
      = rpcError Json.null (-32600) "Invalid Request" ∧
    (∃ entries, mcpResponse 0 (fun _ => 0) (.arr [Json.null, Json.obj []])
      = .arr entries ∧ entries.length = 2) ∧
    (∃ fields, mcpResponse 0 (fun _ => 0) Json.null = Json.obj fields) :=
  ⟨(C9_dispatcher_total 0 (fun _ => 0)).1 0,
   (C9_dispatcher_total 0 (fun _ => 0)).2.1 0 (Json.obj [("params", Json.num 3)]) rfl rfl,
   (C9_dispatcher_total 0 (fun _ => 0)).2.2.1 [Json.null, Json.obj []],
   (C9_dispatcher_total 0 (fun _ => 0)).2.2.2 Json.null rfl⟩

/-- C10: the server time is sampled once per POST before the dispatch loop,
so any two ping requests in one batch are answered with the same pong
timestamp. -/
theorem C10_pings_share_timestamp (now : Int) (r : Nat → Nat) (msgs : List Json)
    (i j : Nat) (hi : i < msgs.length) (hj : j < msgs.length)
    (hpi : getField (msgs.getD i Json.null) "method" = some (Json.str "ping"))
    (hpj : getField (msgs.getD j Json.null) "method" = some (Json.str "ping")) :
    ∃ entries, mcpResponse now r (.arr msgs) = .arr entries ∧
      getField (entries.getD i Json.null) "result"
        = some (Json.obj [("pong", Json.num now)]) ∧
      getField (entries.getD j Json.null) "result"
        = some (Json.obj [("pong", Json.num now)]) := by
  refine ⟨processMsgs now r 0 msgs, rfl, ?_, ?_⟩
  · obtain ⟨kv, hkv⟩ := processMsgs_getD now r msgs 0 i hi
    rw [hkv, stepMsg_ping now (r kv) _ hpi]
    rfl
  · obtain ⟨kv, hkv⟩ := processMsgs_getD now r msgs 0 j hj
    rw [hkv, stepMsg_ping now (r kv) _ hpj]
    rfl

/-- C10 witness: two pings (one a notification, one a request) in a single
batch both receive the pong timestamp 9. -/
theorem C10_witness :
    ∃ entries, mcpResponse 9 (fun _ => 0)
        (.arr [Json.obj [("method", Json.str "ping")],
               Json.obj [("id", Json.num 1), ("method", Json.str "ping")]]) = .arr entries ∧
      getField (entries.getD 0 Json.null) "result"
        = some (Json.obj [("pong", Json.num 9)]) ∧
      getField (entries.getD 1 Json.null) "result"
        = some (Json.obj [("pong", Json.num 9)]) :=
  C10_pings_share_timestamp 9 (fun _ => 0)
    [Json.obj [("method", Json.str "ping")],
     Json.obj [("id", Json.num 1), ("method", Json.str "ping")]]
    0 1 (by decide) (by decide) rfl rfl

end YesNoMcp
